import Mathlib

/-!
A shallow embedding of the review-analysis WSGI application in
`src/server.py`, together with theorems about its request/response
contract: query parsing, location/date filtering, sentiment ranking,
review creation, and the error taxonomy.

Modelling conventions:
* The sentiment scorer (`sia.polarity_scores`) is an external collaborator;
  it is modelled as an abstract total function `String → SentimentScore`
  whose four axes are rationals (standing in for Python floats).
* The effectful inputs of the POST path — `uuid.uuid4()`,
  `datetime.now()`, and the outcome of the builtin call
  `int(environ.get("CONTENT_LENGTH", 0))` — are passed to the handler as
  oracle arguments (`freshId`, `now`, `Request.contentLength`), making the
  handler a pure transition function on the review store.
* `strptime` is modelled definitionally; on ASCII inputs the model agrees
  exactly with CPython (`%Y` is exactly four digits), and theorems that
  depend on a parse failure carry an `isAscii` guard because CPython's
  `\d`-based patterns also accept certain non-ASCII digit strings.
* Python exceptions are modelled as `Option`/`Except` error results and the
  `try/except` blocks of `__call__` as the corresponding error handlers.
* Query strings and form bodies are parsed by a structural model of
  `urllib.parse.parse_qs` (percent-decoding is a transport concern and is
  not modelled; the default `keep_blank_values=False` behaviour, under
  which blank values never reach the handler, is modelled inside
  `getParam`, which is observationally the same).
* String processing is implemented on `List Char` so that every definition
  evaluates by kernel reduction.
-/

/-- Single-quote character as a string; the Python error messages are
f-strings that quote the offending value with it. -/
def squote : String := String.mk [Char.ofNat 39]

/-- Message produced for a location outside the allow-list
(`server.py` lines 83 and 140). -/
def invalidLocationMsg (v : String) : String :=
  squote ++ v ++ squote ++ " is not an allowed location."

/-- Message produced when a POST body lacks a required field
(`server.py` line 136). -/
def requiredFieldsMsg : String :=
  "Both " ++ squote ++ "Location" ++ squote ++ " and " ++ squote ++
    "ReviewBody" ++ squote ++ " are required."

/-- Body of the generic 500 response (`server.py` line 169). -/
def internalErrorMsg : String := "Internal server error."

/-- Body of the 405 response (`server.py` line 164). -/
def methodNotAllowedMsg : String := "Method not allowed."

/-- Message of the `ValueError` raised by CPython `int()` on a string
that is not an integer literal, as observed in `str(ex)`: the message
embeds `repr()` of the value, which for values containing no single
quote (all values used concretely here) is the value wrapped in single
quotes. -/
def pyIntErrMsg (s : String) : String :=
  "invalid literal for int() with base 10: " ++ squote ++ s ++ squote

/-- Four-axis sentiment result of the scorer, cf. `analyze_sentiment`. -/
structure SentimentScore where
  neg : Rat
  neu : Rat
  pos : Rat
  compound : Rat
deriving DecidableEq, Repr

/-- A stored review record, as created by the POST path of `__call__`. -/
structure Review where
  reviewId : String
  location : String
  reviewBody : String
  timestamp : String
deriving DecidableEq, Repr

/-- A review as returned by the GET path: the stored fields plus the
sentiment annotation (`updated_reviews` entries, lines 103-109). -/
structure ScoredReview where
  reviewId : String
  location : String
  timestamp : String
  reviewBody : String
  sentiment : SentimentScore
deriving DecidableEq, Repr

/-- JSON response bodies produced by `__call__`: a scored review array
(GET 200), a created review object (POST 201), or an error object
rendered as `\x7b"error": msg\x7d`. -/
inductive Body where
  | list : List ScoredReview → Body
  | obj : Review → Body
  | err : String → Body
deriving DecidableEq, Repr

/-- An HTTP response: status code plus JSON body. -/
structure Response where
  status : Nat
  body : Body
deriving DecidableEq, Repr

/-- The parts of the WSGI `environ` that `__call__` reads.  The
`contentLength` field carries the outcome of the Python builtin call
`int(environ.get("CONTENT_LENGTH", 0))` on this request (line 127):
`.ok n` when the header (or its integer default `0`) converts, and
`.error msg` when `int()` raises `ValueError`, with `msg = str(ex)`.
Like `uuid.uuid4()` and `datetime.now()`, the builtin's behaviour is
external to the program logic and is supplied as an oracle, so every
`.error` instance denotes a real `int()` failure on the corresponding
header value. -/
structure Request where
  method : String
  queryString : String
  contentLength : Except String Int
  rawBody : String
deriving Repr

/-- The `ALLOWED_LOCATIONS` set from `server.py` (membership is string
equality; the duplicate entry of the source literal is kept, which does
not affect membership). -/
def ALLOWED_LOCATIONS : List String :=
  [ "Albuquerque, New Mexico",
    "Carlsbad, California",
    "Chula Vista, California",
    "Colorado Springs, Colorado",
    "Denver, Colorado",
    "El Cajon, California",
    "El Paso, Texas",
    "Escondido, California",
    "Fresno, California",
    "La Mesa, California",
    "Las Vegas, Nevada",
    "Los Angeles, California",
    "Oceanside, California",
    "Phoenix, Arizona",
    "Sacramento, California",
    "Salt Lake City, Utah",
    "Salt Lake City, Utah",
    "San Diego, California",
    "Tucson, Arizona" ]

/-- Split a character list at every occurrence of `c`, keeping empty
segments, like Python `str.split` with a one-character separator. -/
def splitOnChar (c : Char) : List Char → List (List Char)
  | [] => [[]]
  | x :: xs =>
    let r := splitOnChar c xs
    if x = c then [] :: r
    else
      match r with
      | [] => [[x]]
      | y :: ys => (x :: y) :: ys

/-- Split a character list at the first occurrence of a character,
like Python `str.partition`; `none` when the character does not occur. -/
def splitFirst (c : Char) : List Char → Option (List Char × List Char)
  | [] => none
  | x :: xs =>
    if x = c then some ([], xs)
    else
      match splitFirst c xs with
      | none => none
      | some (k, v) => some (x :: k, v)

/-- Model of `urllib.parse.parse_qs` restricted to what `__call__`
observes: the query (or form body) as an ordered list of key/value pairs.
Empty `&`-segments are skipped; a segment without `=` becomes a pair with
a blank value (Python drops it, and `getParam` below ignores blank values,
so the two models agree observationally). -/
def parse_qs (s : String) : List (String × String) :=
  (splitOnChar (Char.ofNat 38) s.data).filterMap (fun seg =>
    if seg = [] then none
    else
      match splitFirst (Char.ofNat 61) seg with
      | none => some (String.mk seg, "")
      | some (k, v) => some (String.mk k, String.mk v))

/-- Model of `parse_qs(...).get(key, [None])[0]` under
`keep_blank_values=False`: the first non-blank value bound to `key`. -/
def getParam (q : List (String × String)) (k : String) : Option String :=
  match q.filter (fun p => decide (p.1 = k) && decide (p.2 ≠ "")) with
  | [] => none
  | p :: _ => some p.2

/-- Python truthiness of an optional string (`if location:`): `None` and
the empty string are falsy. -/
def truthy : Option String → Bool
  | none => false
  | some s => decide (s ≠ "")

/-- A Python `datetime` value as observed by `__call__` (no microseconds:
both `strptime` formats used by the server leave them zero). -/
structure DateTime where
  year : Nat
  month : Nat
  day : Nat
  hour : Nat
  minute : Nat
  second : Nat
deriving DecidableEq, Repr

/-- Python `datetime` comparison: lexicographic on the six fields. -/
def dtLe (a b : DateTime) : Bool :=
  if a.year ≠ b.year then decide (a.year < b.year)
  else if a.month ≠ b.month then decide (a.month < b.month)
  else if a.day ≠ b.day then decide (a.day < b.day)
  else if a.hour ≠ b.hour then decide (a.hour < b.hour)
  else if a.minute ≠ b.minute then decide (a.minute < b.minute)
  else decide (a.second ≤ b.second)

/-- Non-empty all-digit character sequence. -/
def isDigits (l : List Char) : Bool := !l.isEmpty && l.all Char.isDigit

/-- Decimal value of a digit sequence. -/
def digitsToNat (l : List Char) : Nat :=
  l.foldl (fun acc c => acc * 10 + (c.toNat - 48)) 0

/-- Gregorian leap-year rule, as used by Python `datetime` validation. -/
def isLeapYear (y : Nat) : Bool :=
  y % 4 = 0 && (y % 100 ≠ 0 || y % 400 = 0)

/-- Length of a month, as used by Python `datetime` validation. -/
def daysInMonth (y m : Nat) : Nat :=
  if m = 2 then (if isLeapYear y then 29 else 28)
  else if m = 4 ∨ m = 6 ∨ m = 9 ∨ m = 11 then 30
  else 31

/-- ASCII-only string: every character has a code point below 128.
CPython's `_strptime` regular expressions mix ASCII character classes
with `\d`, which also matches some non-ASCII decimal digits; on ASCII
inputs the parsers below agree exactly with `datetime.strptime`, so
theorems that rely on a parse FAILURE carry this guard (parse successes
need no guard: the model only ever accepts ASCII digits, and every such
acceptance is also a CPython acceptance with the same value). -/
def isAscii (s : String) : Bool := s.data.all (fun c => c.toNat < 128)

/-- Model of `datetime.strptime(s, "%Y-%m-%d")` on the character list of
`s`: three dash-separated digit groups — exactly four digits for `%Y`
(CPython compiles it to a four-`\d` pattern) and one or two digits for
`%m` and `%d` — followed by a calendar validity check (month range, day
range for the month with leap years, `MINYEAR = 1`), yielding a midnight
time-of-day; `none` models the `ValueError` raised on malformed input. -/
def parseDateChars (l : List Char) : Option DateTime :=
  match splitOnChar (Char.ofNat 45) l with
  | [ys, ms, ds] =>
    if isDigits ys ∧ ys.length = 4 ∧ isDigits ms ∧ ms.length ≤ 2 ∧
        isDigits ds ∧ ds.length ≤ 2 then
      let y := digitsToNat ys
      let m := digitsToNat ms
      let d := digitsToNat ds
      if 1 ≤ y ∧ 1 ≤ m ∧ m ≤ 12 ∧ 1 ≤ d ∧ d ≤ daysInMonth y m then
        some ⟨y, m, d, 0, 0, 0⟩
      else none
    else none
  | _ => none

/-- Model of `datetime.strptime(s, "%Y-%m-%d")` (the `start_date` and
`end_date` parser, lines 87 and 94). -/
def parseDate (s : String) : Option DateTime := parseDateChars s.data

/-- Model of `datetime.strptime(s, TIMESTAMP_FORMAT)` with
`TIMESTAMP_FORMAT = "%Y-%m-%d %H:%M:%S"` (the stored-timestamp parser,
lines 90 and 97). -/
def parseTimestamp (s : String) : Option DateTime :=
  match splitOnChar (Char.ofNat 32) s.data with
  | [dp, tp] =>
    match parseDateChars dp, splitOnChar (Char.ofNat 58) tp with
    | some d, [hs, ns, ss] =>
      if isDigits hs ∧ hs.length ≤ 2 ∧ isDigits ns ∧ ns.length ≤ 2 ∧
          isDigits ss ∧ ss.length ≤ 2 then
        let h := digitsToNat hs
        let n := digitsToNat ns
        let s2 := digitsToNat ss
        if h ≤ 23 ∧ n ≤ 59 ∧ s2 ≤ 59 then
          some ⟨d.year, d.month, d.day, h, n, s2⟩
        else none
      else none
    | _, _ => none
  | _ => none

/-- ASCII digit character for `n % 10`. -/
def digitChar (n : Nat) : Char := Char.ofNat (48 + n % 10)

/-- Model of `datetime.now().strftime("%Y-%m-%d %H:%M:%S")`: zero-padded
decimal rendering of the six fields. Python `datetime` years satisfy
`1 ≤ year ≤ 9999`, so the four-digit rendering of the year is exact on
every reachable value. -/
def strftimeTs (t : DateTime) : String :=
  String.mk
    [ digitChar (t.year / 1000), digitChar (t.year / 100),
      digitChar (t.year / 10), digitChar t.year,
      Char.ofNat 45,
      digitChar (t.month / 10), digitChar t.month,
      Char.ofNat 45,
      digitChar (t.day / 10), digitChar t.day,
      Char.ofNat 32,
      digitChar (t.hour / 10), digitChar t.hour,
      Char.ofNat 58,
      digitChar (t.minute / 10), digitChar t.minute,
      Char.ofNat 58,
      digitChar (t.second / 10), digitChar t.second ]

/-- Structural check that a string has the shape `YYYY-MM-DD HH:MM:SS`. -/
def isTsFormat (s : String) : Bool :=
  match s.data with
  | [y1, y2, y3, y4, c1, m1, m2, c2, d1, d2, c3, h1, h2, c4, n1, n2, c5, s1, s2] =>
    y1.isDigit && y2.isDigit && y3.isDigit && y4.isDigit &&
    m1.isDigit && m2.isDigit && d1.isDigit && d2.isDigit &&
    h1.isDigit && h2.isDigit && n1.isDigit && n2.isDigit &&
    s1.isDigit && s2.isDigit &&
    decide (c1 = Char.ofNat 45) && decide (c2 = Char.ofNat 45) &&
    decide (c3 = Char.ofNat 32) &&
    decide (c4 = Char.ofNat 58) && decide (c5 = Char.ofNat 58)
  | _ => false

/-- Insert a scored review into a list that is already in descending
`compound` order, after every element whose `compound` is at least as
large. This realises the placement Python's stable `sorted(...,
key=lambda x: x["sentiment"]["compound"], reverse=True)` gives to an
element relative to the elements originally preceding it. -/
def insertDesc (x : ScoredReview) : List ScoredReview → List ScoredReview
  | [] => [x]
  | y :: ys =>
    if y.sentiment.compound ≤ x.sentiment.compound then x :: y :: ys
    else y :: insertDesc x ys

/-- Model of `sorted(updated_reviews, key=lambda x:
x["sentiment"]["compound"], reverse=True)` (line 111): the stable
descending sort by compound score.  A stable sort is determined uniquely
by its comparison key, so this insertion sort is extensionally the same
function as Python's Timsort with `reverse=True`. -/
def pySortByCompound : List ScoredReview → List ScoredReview
  | [] => []
  | x :: xs => insertDesc x (pySortByCompound xs)

/-- The sentiment annotation step for one review (lines 102-109). -/
def scoreOne (scorer : String → SentimentScore) (r : Review) : ScoredReview :=
  ⟨r.reviewId, r.location, r.timestamp, r.reviewBody, scorer r.reviewBody⟩

/-- Parsed timestamp of a stored review, defaulting to the epoch-like
zero value; every use is guarded by a successful-parse hypothesis. -/
def tsOf (r : Review) : DateTime :=
  (parseTimestamp r.timestamp).getD ⟨0, 0, 0, 0, 0, 0⟩

/-- Outcome of the body of a date-filtering list comprehension
(lines 88-91 and 95-98): `none` models the `ValueError` raised by
`strptime` on a stored timestamp that fails to parse, which aborts the
whole comprehension. -/
def dateFilter (p : DateTime → Bool) : List Review → Option (List Review)
  | [] => some []
  | r :: rs =>
    match parseTimestamp r.timestamp with
    | none => none
    | some t =>
      match dateFilter p rs with
      | none => none
      | some rest => some (if p t then r :: rest else rest)

/-- How the GET pipeline can stop early: an explicit early `return` with
an error response (invalid location, lines 81-83), or a Python exception
that escapes to the outer handler (malformed dates, bad stored
timestamps). -/
inductive GetBreak where
  | early : Response → GetBreak
  | exc : GetBreak
deriving DecidableEq, Repr

/-- The `if location:` block of the GET path (lines 80-84). -/
def locationStep (reviews : List Review) (location : Option String) :
    Except GetBreak (List Review) :=
  if truthy location then
    let loc := location.getD ""
    if loc ∈ ALLOWED_LOCATIONS then
      .ok (reviews.filter (fun r => decide (r.location = loc)))
    else
      .error (.early ⟨400, .err (invalidLocationMsg loc)⟩)
  else .ok reviews

/-- The `if start_date:` block of the GET path (lines 86-91); a review
survives when its parsed timestamp is `≥` the parsed bound. -/
def startStep (reviews : List Review) (p : Option String) :
    Except GetBreak (List Review) :=
  if truthy p then
    match parseDate (p.getD "") with
    | none => .error .exc
    | some sd =>
      match dateFilter (fun t => dtLe sd t) reviews with
      | none => .error .exc
      | some l => .ok l
  else .ok reviews

/-- The `if end_date:` block of the GET path (lines 93-98); a review
survives when its parsed timestamp is `≤` the parsed bound. -/
def endStep (reviews : List Review) (p : Option String) :
    Except GetBreak (List Review) :=
  if truthy p then
    match parseDate (p.getD "") with
    | none => .error .exc
    | some ed =>
      match dateFilter (fun t => dtLe t ed) reviews with
      | none => .error .exc
      | some l => .ok l
  else .ok reviews

/-- The filtering half of the GET path (lines 73-98), as a function of
the three extracted query parameters. -/
def getCoreAux (reviews : List Review)
    (location start_date end_date : Option String) :
    Except GetBreak (List Review) :=
  match locationStep reviews location with
  | .error e => .error e
  | .ok f0 =>
    match startStep f0 start_date with
    | .error e => .error e
    | .ok f1 => endStep f1 end_date

/-- The whole GET branch of `__call__` (lines 71-121): filter, score,
sort, encode.  A `none` result models an exception escaping to the outer
`except` handler. -/
def runGetBody (scorer : String → SentimentScore) (reviews : List Review)
    (q : List (String × String)) : Option Response :=
  match getCoreAux reviews (getParam q "location") (getParam q "start_date")
      (getParam q "end_date") with
  | .error (.early resp) => some resp
  | .error .exc => none
  | .ok f =>
    some ⟨200, Body.list (pySortByCompound (f.map (scoreOne scorer)))⟩

/-- Model of `environ["wsgi.input"].read(n).decode("utf-8")` (line 128):
the first `n` characters of the transmitted body; a negative count reads
the whole stream. -/
def pyRead (body : String) (n : Int) : String :=
  if n < 0 then body else String.mk (body.data.take n.toNat)

/-- The inner `try` of the POST branch (lines 126-153), as a pure
transition: `freshId` stands for `str(uuid.uuid4())`, `now` for
`datetime.now()`, and `contentLength` for the outcome of
`int(environ.get("CONTENT_LENGTH", 0))` (see `Request`).  An
`Except.error msg` result models an exception caught by the inner
`except Exception as ex` handler, with `msg = str(ex)`. -/
def runPost (st : List Review) (freshId : String) (now : DateTime)
    (contentLength : Except String Int) (rawBody : String) :
    Except String (Response × List Review) :=
  match contentLength with
  | .error msg => .error msg
  | .ok n =>
    let data := parse_qs (pyRead rawBody n)
    let location := getParam data "Location"
    let review_body := getParam data "ReviewBody"
    if !(truthy location) || !(truthy review_body) then
      .ok (⟨400, .err requiredFieldsMsg⟩, st)
    else if location.getD "" ∈ ALLOWED_LOCATIONS then
      .ok (⟨201, .obj ⟨freshId, location.getD "", review_body.getD "",
            strftimeTs now⟩⟩,
        st ++ [⟨freshId, location.getD "", review_body.getD "", strftimeTs now⟩])
    else
      .ok (⟨400, .err (invalidLocationMsg (location.getD ""))⟩, st)

/-- One full request/response turn of `ReviewAnalyzerServer.__call__`
(lines 62-169): method dispatch, the POST branch's own `except` handler
(400 with `str(ex)`), and the outer `except` handler (500 generic). -/
def handleRequest (scorer : String → SentimentScore) (freshId : String)
    (now : DateTime) (st : List Review) (req : Request) :
    Response × List Review :=
  if req.method = "GET" then
    match runGetBody scorer st (parse_qs req.queryString) with
    | some resp => (resp, st)
    | none => (⟨500, .err internalErrorMsg⟩, st)
  else if req.method = "POST" then
    match runPost st freshId now req.contentLength req.rawBody with
    | .ok (resp, st2) => (resp, st2)
    | .error msg => (⟨400, .err msg⟩, st)
  else
    (⟨405, .err methodNotAllowedMsg⟩, st)

/-- A deterministic stand-in scorer used in concrete evaluations. -/
def stubScorer : String → SentimentScore := fun _ => ⟨0, 1, 0, 0⟩

/-- A stand-in scorer that gives the body `"pos"` a higher compound score
than every other body, producing ties elsewhere. -/
def tieScorer : String → SentimentScore :=
  fun s => if s = "pos" then ⟨0, 0, 0, 2⟩ else ⟨0, 0, 0, 1⟩

/-- A concrete creation instant used in concrete evaluations. -/
def demoNow : DateTime := ⟨2024, 7, 3, 9, 30, 5⟩

/-- A small concrete store used in concrete evaluations. -/
def demoStore : List Review :=
  [ ⟨"r1", "Denver, Colorado", "Great service!", "2021-01-01 10:00:00"⟩,
    ⟨"r2", "El Paso, Texas", "Awful.", "2022-06-15 09:30:00"⟩,
    ⟨"r3", "El Paso, Texas", "Fine.", "2022-06-15 00:00:00"⟩ ]

/-- A store whose bodies give two tied compound scores under
`tieScorer`, for exercising sort stability. -/
def tieStore : List Review :=
  [ ⟨"t1", "Denver, Colorado", "meh", "2021-01-01 00:00:00"⟩,
    ⟨"t2", "Denver, Colorado", "meh", "2021-01-02 00:00:00"⟩,
    ⟨"t3", "Denver, Colorado", "pos", "2021-01-03 00:00:00"⟩ ]

/-- Inserting into a list is a permutation of consing. -/
theorem insertDesc_perm (x : ScoredReview) (s : List ScoredReview) :
    (insertDesc x s).Perm (x :: s) := by
  induction s with
  | nil => exact List.Perm.refl _
  | cons y ys ih =>
    by_cases h : y.sentiment.compound ≤ x.sentiment.compound
    · rw [insertDesc, if_pos h]
    · rw [insertDesc, if_neg h]
      exact (ih.cons y).trans (List.Perm.swap x y ys)

/-- The sort is a permutation of its input. -/
theorem pySortByCompound_perm (l : List ScoredReview) :
    (pySortByCompound l).Perm l := by
  induction l with
  | nil => exact List.Perm.refl _
  | cons x xs ih => exact (insertDesc_perm x (pySortByCompound xs)).trans (ih.cons x)

/-- Inserting preserves descending order of the compound scores. -/
theorem insertDesc_pairwise (x : ScoredReview) (s : List ScoredReview)
    (hs : s.Pairwise (fun a b => b.sentiment.compound ≤ a.sentiment.compound)) :
    (insertDesc x s).Pairwise
      (fun a b => b.sentiment.compound ≤ a.sentiment.compound) := by
  induction s with
  | nil => simp [insertDesc]
  | cons y ys ih =>
    rcases List.pairwise_cons.mp hs with ⟨hy, hys⟩
    by_cases h : y.sentiment.compound ≤ x.sentiment.compound
    · rw [insertDesc, if_pos h]
      refine List.pairwise_cons.mpr ⟨?_, hs⟩
      intro a ha
      rcases List.mem_cons.mp ha with rfl | ha
      · exact h
      · exact le_trans (hy a ha) h
    · rw [insertDesc, if_neg h]
      refine List.pairwise_cons.mpr ⟨?_, ih hys⟩
      intro a ha
      have ha2 : a = x ∨ a ∈ ys := by
        simpa using (insertDesc_perm x ys).mem_iff.mp ha
      rcases ha2 with rfl | ha2
      · exact le_of_not_le h
      · exact hy a ha2

/-- The sorted output is in descending compound order. -/
theorem pySortByCompound_pairwise (l : List ScoredReview) :
    (pySortByCompound l).Pairwise
      (fun a b => b.sentiment.compound ≤ a.sentiment.compound) := by
  induction l with
  | nil => simp [pySortByCompound]
  | cons x xs ih => exact insertDesc_pairwise x (pySortByCompound xs) ih

/-- Inserting an element either prepends it to the sub-list of a given
compound value (when it has that value) or leaves that sub-list alone:
every element the insertion skips has a strictly larger compound score. -/
theorem insertDesc_filter (x : ScoredReview) (s : List ScoredReview) (c : Rat) :
    (insertDesc x s).filter (fun z => decide (z.sentiment.compound = c)) =
      if x.sentiment.compound = c then
        x :: s.filter (fun z => decide (z.sentiment.compound = c))
      else s.filter (fun z => decide (z.sentiment.compound = c)) := by
  induction s with
  | nil =>
    by_cases h : x.sentiment.compound = c <;> simp [insertDesc, h]
  | cons y ys ih =>
    by_cases hc : y.sentiment.compound ≤ x.sentiment.compound
    · rw [insertDesc, if_pos hc]
      by_cases hx : x.sentiment.compound = c
      · by_cases hy : y.sentiment.compound = c <;>
          simp [List.filter_cons, hx, hy]
      · by_cases hy : y.sentiment.compound = c <;>
          simp [List.filter_cons, hx, hy]
    · rw [insertDesc, if_neg hc]
      by_cases hy : y.sentiment.compound = c
      · have hx : ¬x.sentiment.compound = c := by
          intro hx
          exact hc (by rw [hx, hy])
        simp [List.filter_cons, hy, hx, ih]
      · by_cases hx : x.sentiment.compound = c <;>
          simp [List.filter_cons, hy, hx, ih]

/-- Stability of the sort: for every compound value `c`, the sub-sequence
of elements with that exact score is unchanged by sorting, i.e. tied
elements keep their pre-sort relative order. -/
theorem pySortByCompound_filter (l : List ScoredReview) (c : Rat) :
    (pySortByCompound l).filter (fun z => decide (z.sentiment.compound = c)) =
      l.filter (fun z => decide (z.sentiment.compound = c)) := by
  induction l with
  | nil => rfl
  | cons x xs ih =>
    rw [pySortByCompound, insertDesc_filter, List.filter_cons]
    by_cases hx : x.sentiment.compound = c <;> simp [hx, ih]

/-- A parameter value extracted by `getParam` is never the empty string:
`parse_qs` with default options drops blank values. -/
theorem getParam_ne_blank {q : List (String × String)} {k v : String}
    (h : getParam q k = some v) : v ≠ "" := by
  unfold getParam at h
  rcases hl : q.filter (fun p => decide (p.1 = k) && decide (p.2 ≠ "")) with _ | ⟨p, ps⟩
  · rw [hl] at h
    cases h
  · rw [hl] at h
    injection h with h2
    subst h2
    have hp : p ∈ q.filter (fun p => decide (p.1 = k) && decide (p.2 ≠ "")) := by
      rw [hl]
      exact List.mem_cons_self p ps
    have h3 := (List.mem_filter.mp hp).2
    simp only [Bool.and_eq_true, decide_eq_true_eq] at h3
    exact h3.2

/-- Dropping blank-valued pairs from a query does not change any
extracted parameter. -/
theorem getParam_filter_blank (q : List (String × String)) (k : String) :
    getParam (q.filter (fun p => decide (p.2 ≠ ""))) k = getParam q k := by
  unfold getParam
  rw [List.filter_filter]
  have h : (fun (a : String × String) =>
      (decide (a.1 = k) && decide (a.2 ≠ "")) && decide (a.2 ≠ "")) =
      (fun (a : String × String) => decide (a.1 = k) && decide (a.2 ≠ "")) := by
    funext a
    rw [Bool.and_assoc, Bool.and_self]
  rw [h]

/-- When every timestamp in the list parses, the date-filtering
comprehension is an ordinary filter on the parsed timestamps. -/
theorem dateFilter_eq_filter (p : DateTime → Bool) (l : List Review)
    (h : ∀ r ∈ l, parseTimestamp r.timestamp ≠ none) :
    dateFilter p l = some (l.filter (fun r => p (tsOf r))) := by
  induction l with
  | nil => rfl
  | cons r rs ih =>
    rcases ht : parseTimestamp r.timestamp with _ | t
    · exact absurd ht (h r (List.mem_cons_self r rs))
    · have htr : tsOf r = t := by
        rw [tsOf, ht]
        rfl
      rw [dateFilter, ht, ih (fun x hx => h x (List.mem_cons_of_mem r hx)),
        List.filter_cons, htr]

/-- A location criterion that is absent or allowed reduces the location
block to an ordinary filter (trivial when the criterion is absent). -/
theorem locationStep_eq (reviews : List Review) (location : Option String)
    (hloc : truthy location = false ∨ location.getD "" ∈ ALLOWED_LOCATIONS) :
    locationStep reviews location =
      .ok (reviews.filter (fun r =>
        !truthy location || decide (r.location = location.getD ""))) := by
  cases htl : truthy location
  · simp [locationStep, htl, List.filter_true]
  · rcases hloc with h | h
    · rw [htl] at h
      cases h
    · simp [locationStep, htl, h]

/-- A start-date criterion that is absent or well-formed, over a store
whose timestamps parse, reduces the start block to an ordinary filter. -/
theorem startStep_eq (reviews : List Review) (p : Option String) (SD : DateTime)
    (hts : ∀ r ∈ reviews, parseTimestamp r.timestamp ≠ none)
    (hsd : truthy p = false ∨ parseDate (p.getD "") = some SD) :
    startStep reviews p =
      .ok (reviews.filter (fun r => !truthy p || dtLe SD (tsOf r))) := by
  cases htp : truthy p
  · simp [startStep, htp, List.filter_true]
  · rcases hsd with h | h
    · rw [htp] at h
      cases h
    · rw [startStep]
      simp only [htp, if_true, h, dateFilter_eq_filter _ _ hts]
      simp

/-- A end-date criterion that is absent or well-formed, over a store
whose timestamps parse, reduces the end block to an ordinary filter. -/
theorem endStep_eq (reviews : List Review) (p : Option String) (ED : DateTime)
    (hts : ∀ r ∈ reviews, parseTimestamp r.timestamp ≠ none)
    (hed : truthy p = false ∨ parseDate (p.getD "") = some ED) :
    endStep reviews p =
      .ok (reviews.filter (fun r => !truthy p || dtLe (tsOf r) ED)) := by
  cases htp : truthy p
  · simp [endStep, htp, List.filter_true]
  · rcases hed with h | h
    · rw [htp] at h
      cases h
    · rw [endStep]
      simp only [htp, if_true, h, dateFilter_eq_filter _ _ hts]
      simp

/-- The start block only breaks out of the pipeline via an exception. -/
theorem startStep_error_exc {reviews : List Review} {p : Option String}
    {e : GetBreak} (h : startStep reviews p = .error e) : e = GetBreak.exc := by
  unfold startStep at h
  split at h
  · split at h
    · injection h with h2
      exact h2.symm
    · split at h
      · injection h with h2
        exact h2.symm
      · cases h
  · cases h

/-- The end block only breaks out of the pipeline via an exception. -/
theorem endStep_error_exc {reviews : List Review} {p : Option String}
    {e : GetBreak} (h : endStep reviews p = .error e) : e = GetBreak.exc := by
  unfold endStep at h
  split at h
  · split at h
    · injection h with h2
      exact h2.symm
    · split at h
      · injection h with h2
        exact h2.symm
      · cases h
  · cases h

/-- With valid (or absent) criteria and parseable stored timestamps, the
GET filtering pipeline is the conjunction of the three independent
predicates: exact location match, parsed timestamp at least the start
bound, parsed timestamp at most the end bound. -/
theorem getCoreAux_filters (reviews : List Review)
    (location start_date end_date : Option String) (SD ED : DateTime)
    (hts : ∀ r ∈ reviews, parseTimestamp r.timestamp ≠ none)
    (hloc : truthy location = false ∨ location.getD "" ∈ ALLOWED_LOCATIONS)
    (hsd : truthy start_date = false ∨ parseDate (start_date.getD "") = some SD)
    (hed : truthy end_date = false ∨ parseDate (end_date.getD "") = some ED) :
    getCoreAux reviews location start_date end_date =
      .ok (reviews.filter (fun r =>
        (!truthy location || decide (r.location = location.getD "")) &&
        (!truthy start_date || dtLe SD (tsOf r)) &&
        (!truthy end_date || dtLe (tsOf r) ED))) := by
  have hts1 : ∀ r ∈ reviews.filter (fun r =>
      !truthy location || decide (r.location = location.getD "")),
      parseTimestamp r.timestamp ≠ none :=
    fun r hr => hts r (List.mem_of_mem_filter hr)
  have hts2 : ∀ r ∈ (reviews.filter (fun r =>
      !truthy location || decide (r.location = location.getD ""))).filter
        (fun r => !truthy start_date || dtLe SD (tsOf r)),
      parseTimestamp r.timestamp ≠ none :=
    fun r hr => hts1 r (List.mem_of_mem_filter hr)
  simp only [getCoreAux, locationStep_eq reviews location hloc,
    startStep_eq _ start_date SD hts1 hsd,
    endStep_eq _ end_date ED hts2 hed]
  rw [List.filter_filter, List.filter_filter]
  congr 1
  apply List.filter_congr
  intro r _
  cases !truthy location || decide (r.location = location.getD "") <;>
    cases !truthy start_date || dtLe SD (tsOf r) <;>
    cases !truthy end_date || dtLe (tsOf r) ED <;> rfl

/-- With none of the three criteria supplied, the GET branch returns 200
with the whole store scored and sorted. -/
theorem runGetBody_no_criteria (scorer : String → SentimentScore)
    (reviews : List Review) (q : List (String × String))
    (h1 : getParam q "location" = none) (h2 : getParam q "start_date" = none)
    (h3 : getParam q "end_date" = none) :
    runGetBody scorer reviews q =
      some ⟨200, Body.list (pySortByCompound (reviews.map (scoreOne scorer)))⟩ := by
  rw [runGetBody, h1, h2, h3]
  rfl

/-- Every normal completion of the POST body is either a validation 400
that leaves the store unchanged, or a 201. -/
theorem runPost_ok_cases {st : List Review} {fid : String} {now : DateTime}
    {cl : Except String Int} {rb : String} {resp : Response} {st2 : List Review}
    (h : runPost st fid now cl rb = .ok (resp, st2)) :
    (resp.status = 400 ∧ st2 = st) ∨ resp.status = 201 := by
  unfold runPost at h
  split at h
  · cases h
  · dsimp only at h
    split at h
    · injection h with h2
      injection h2 with h3 h4
      subst h3
      subst h4
      exact Or.inl ⟨rfl, rfl⟩
    · split at h
      · injection h with h2
        injection h2 with h3 h4
        subst h3
        exact Or.inr rfl
      · injection h with h2
        injection h2 with h3 h4
        subst h3
        subst h4
        exact Or.inl ⟨rfl, rfl⟩

/-- Characterisation of a successful creation: with a readable body
carrying an allowed `Location` and a non-blank `ReviewBody`, the POST
body returns 201 with the new record, which is appended to the store. -/
theorem runPost_success {st : List Review} {fid : String} {now : DateTime}
    {cl : Except String Int} {rb : String} {n : Int} {loc rbody : String}
    (hn : cl = .ok n)
    (hl : getParam (parse_qs (pyRead rb n)) "Location" = some loc)
    (hr : getParam (parse_qs (pyRead rb n)) "ReviewBody" = some rbody)
    (hal : loc ∈ ALLOWED_LOCATIONS) :
    runPost st fid now cl rb =
      .ok (⟨201, Body.obj ⟨fid, loc, rbody, strftimeTs now⟩⟩,
        st ++ [⟨fid, loc, rbody, strftimeTs now⟩]) := by
  have htl : truthy (some loc) = true := by
    simp [truthy, getParam_ne_blank hl]
  have htr : truthy (some rbody) = true := by
    simp [truthy, getParam_ne_blank hr]
  subst hn
  simp only [runPost, hl, hr, htl, htr, Bool.not_true, Bool.or_self,
    Bool.false_eq_true, if_false, Option.getD_some]
  rw [if_pos hal]

/-- The timestamp rendered by `strftime` with the server's
`TIMESTAMP_FORMAT` always has the `YYYY-MM-DD HH:MM:SS` shape. -/
theorem isTsFormat_strftimeTs (t : DateTime) :
    isTsFormat (strftimeTs t) = true := by
  have hd : ∀ n : Nat, (digitChar n).isDigit = true := by
    intro n
    have h10 : n % 10 < 10 := Nat.mod_lt _ (by decide)
    have hall : ∀ m, m < 10 → (Char.ofNat (48 + m)).isDigit = true := by decide
    exact hall (n % 10) h10
  simp [isTsFormat, strftimeTs, hd]

/-- C1 counterexample: a GET request whose `start_date` parameter is
present but not a well-formed `YYYY-MM-DD` date (month 13) is answered
with the generic 500 internal-error response, not with a 400 carrying a
validation message, so the claim as stated fails on the code. -/
theorem getMalformedDate500Cx :
    (handleRequest stubScorer "u1" demoNow []
        ⟨"GET", "start_date=2024-13-01", .ok 0, ""⟩).1 =
      ⟨500, Body.err internalErrorMsg⟩ ∧
    (handleRequest stubScorer "u1" demoNow []
        ⟨"GET", "start_date=2024-13-01", .ok 0, ""⟩).1.status ≠ 400 := by
  decide

/-- C1 (amended): for every GET request whose `start_date` or `end_date`
parameter is supplied with a non-blank ASCII value that is not a
well-formed `YYYY-MM-DD` date (exactly four-digit year, one-or-two-digit
month and day, valid calendar date — on ASCII values `parseDate` agrees
exactly with CPython `strptime`, whose regex would also accept certain
non-ASCII digit strings), provided the location criterion did not
already fail, the request fails with status 500 and the generic
internal-error body — the `strptime` `ValueError` escapes to the outer
handler, no `InvalidDateFormat` validation message is surfaced, and the
store is unchanged. -/
theorem getMalformedDateInternalError (scorer : String → SentimentScore)
    (fid : String) (now : DateTime) (st : List Review) (req : Request)
    (hm : req.method = "GET")
    (hloc : truthy (getParam (parse_qs req.queryString) "location") = false ∨
      (getParam (parse_qs req.queryString) "location").getD "" ∈ ALLOWED_LOCATIONS)
    (hbad : (truthy (getParam (parse_qs req.queryString) "start_date") = true ∧
        isAscii ((getParam (parse_qs req.queryString) "start_date").getD "") = true ∧
        parseDate ((getParam (parse_qs req.queryString) "start_date").getD "") = none) ∨
      (truthy (getParam (parse_qs req.queryString) "end_date") = true ∧
        isAscii ((getParam (parse_qs req.queryString) "end_date").getD "") = true ∧
        parseDate ((getParam (parse_qs req.queryString) "end_date").getD "") = none)) :
    handleRequest scorer fid now st req = (⟨500, Body.err internalErrorMsg⟩, st) := by
  have hcore : getCoreAux st (getParam (parse_qs req.queryString) "location")
      (getParam (parse_qs req.queryString) "start_date")
      (getParam (parse_qs req.queryString) "end_date") = .error .exc := by
    simp only [getCoreAux,
      locationStep_eq st (getParam (parse_qs req.queryString) "location") hloc]
    rcases hbad with ⟨htr, _, hpd⟩ | ⟨htr, _, hpd⟩
    · have hss : startStep
          (st.filter (fun r => !truthy (getParam (parse_qs req.queryString) "location") ||
            decide (r.location = (getParam (parse_qs req.queryString) "location").getD "")))
          (getParam (parse_qs req.queryString) "start_date") = .error .exc := by
        rw [startStep, htr, hpd]
        rfl
      simp only [hss]
    · rcases hs : startStep
          (st.filter (fun r => !truthy (getParam (parse_qs req.queryString) "location") ||
            decide (r.location = (getParam (parse_qs req.queryString) "location").getD "")))
          (getParam (parse_qs req.queryString) "start_date") with e | f1
      · have he := startStep_error_exc hs
        subst he
        simp only [hs]
      · have hes : endStep f1 (getParam (parse_qs req.queryString) "end_date") =
            .error .exc := by
          rw [endStep, htr, hpd]
          rfl
        simp only [hs, hes]
  rw [handleRequest, if_pos hm, runGetBody, hcore]

/-- C1 witness: the amended theorem applied to a concrete GET request
with an allowed location filter and a malformed `end_date`. -/
theorem getMalformedDateInternalErrorWitness :
    handleRequest stubScorer "u1" demoNow demoStore
        ⟨"GET", "location=Denver, Colorado&end_date=nope", .ok 0, ""⟩ =
      (⟨500, Body.err internalErrorMsg⟩, demoStore) :=
  getMalformedDateInternalError stubScorer "u1" demoNow demoStore
    ⟨"GET", "location=Denver, Colorado&end_date=nope", .ok 0, ""⟩
    rfl (by decide) (by decide)

/-- C2 counterexample: a POST request whose body read fails — here
`int(environ["CONTENT_LENGTH"])` raises `ValueError` on `"abc"` — is
answered by the POST branch's own handler with status 400 and the
original exception text in the body, not with the generic 500 response,
so the claim as stated fails on the code. -/
theorem postFailureNot500Cx :
    (handleRequest stubScorer "u1" demoNow []
        ⟨"POST", "", .error (pyIntErrMsg "abc"), "Location=Denver, Colorado&ReviewBody=ok"⟩).1 =
      ⟨400, Body.err (pyIntErrMsg "abc")⟩ ∧
    (handleRequest stubScorer "u1" demoNow []
        ⟨"POST", "", .error (pyIntErrMsg "abc"), "Location=Denver, Colorado&ReviewBody=ok"⟩).1.status ≠ 500 := by
  decide

/-- C2 (amended): for every POST request on which the body-read step
fails — `int(environ.get("CONTENT_LENGTH", 0))` raises `ValueError`
with text `msg`, supplied as the request's oracle outcome — the failure
is intercepted by the POST branch's own `except Exception` clause and
produces status 400 with the original error message `str(ex)` in the
body: it never reaches the generic 500 path, the error detail IS
returned to the client, and the store is unchanged. -/
theorem postFailureCaught400 (scorer : String → SentimentScore)
    (fid : String) (now : DateTime) (st : List Review) (req : Request)
    (msg : String) (hm : req.method = "POST")
    (hcl : req.contentLength = .error msg) :
    handleRequest scorer fid now st req = (⟨400, Body.err msg⟩, st) ∧
    (handleRequest scorer fid now st req).1.status ≠ 500 := by
  have hng : req.method ≠ "GET" := by
    rw [hm]
    decide
  have hfail : runPost st fid now req.contentLength req.rawBody = .error msg := by
    rw [runPost.eq_def, hcl]
  have h1 : handleRequest scorer fid now st req = (⟨400, Body.err msg⟩, st) := by
    rw [handleRequest, if_neg hng, if_pos hm, hfail]
  refine ⟨h1, ?_⟩
  rw [h1]
  exact (by decide : (400 : Nat) ≠ 500)

/-- C2 witness: the amended theorem applied to a concrete POST request
with an unparsable `CONTENT_LENGTH` header. -/
theorem postFailureCaught400Witness :
    handleRequest stubScorer "u1" demoNow demoStore ⟨"POST", "", .error (pyIntErrMsg "12abc"), "x"⟩ =
      (⟨400, Body.err (pyIntErrMsg "12abc")⟩, demoStore) ∧
    (handleRequest stubScorer "u1" demoNow demoStore
        ⟨"POST", "", .error (pyIntErrMsg "12abc"), "x"⟩).1.status ≠ 500 :=
  postFailureCaught400 stubScorer "u1" demoNow demoStore
    ⟨"POST", "", .error (pyIntErrMsg "12abc"), "x"⟩ (pyIntErrMsg "12abc") rfl rfl

/-- C3: for every GET request supplying no location, start_date or
end_date criteria, the response has status 200, its body is exactly the
full current store, each review annotated with the scorer's four-axis
sentiment, and the list is a permutation of the scored store ordered by
descending compound score; the store is unchanged. -/
theorem getNoCriteriaFullStore (scorer : String → SentimentScore)
    (fid : String) (now : DateTime) (st : List Review) (req : Request)
    (hm : req.method = "GET")
    (h1 : getParam (parse_qs req.queryString) "location" = none)
    (h2 : getParam (parse_qs req.queryString) "start_date" = none)
    (h3 : getParam (parse_qs req.queryString) "end_date" = none) :
    handleRequest scorer fid now st req =
      (⟨200, Body.list (pySortByCompound (st.map (scoreOne scorer)))⟩, st) ∧
    (pySortByCompound (st.map (scoreOne scorer))).Perm (st.map (scoreOne scorer)) ∧
    (pySortByCompound (st.map (scoreOne scorer))).Pairwise
      (fun a b => b.sentiment.compound ≤ a.sentiment.compound) := by
  refine ⟨?_, pySortByCompound_perm _, pySortByCompound_pairwise _⟩
  rw [handleRequest, if_pos hm, runGetBody_no_criteria scorer st _ h1 h2 h3]

/-- C3 witness: the theorem applied to a concrete criterion-free GET
request over the demo store. -/
theorem getNoCriteriaFullStoreWitness :
    handleRequest stubScorer "u1" demoNow demoStore ⟨"GET", "", .ok 0, ""⟩ =
      (⟨200, Body.list (pySortByCompound (demoStore.map (scoreOne stubScorer)))⟩,
        demoStore) ∧
    (pySortByCompound (demoStore.map (scoreOne stubScorer))).Perm
      (demoStore.map (scoreOne stubScorer)) ∧
    (pySortByCompound (demoStore.map (scoreOne stubScorer))).Pairwise
      (fun a b => b.sentiment.compound ≤ a.sentiment.compound) :=
  getNoCriteriaFullStore stubScorer "u1" demoNow demoStore
    ⟨"GET", "", .ok 0, ""⟩ rfl rfl rfl rfl

/-- C4: for every GET request with valid (or absent) criteria over a
store whose timestamps parse, the result is the store filtered by the
conjunction of the three criteria — a review survives the start bound
exactly when `dtLe SD (tsOf r)` (timestamp greater than or equal to the
bound), survives the end bound exactly when `dtLe (tsOf r) ED`
(timestamp less than or equal to the bound, so boundary-equal timestamps
are included on both sides), and the location criterion composes
conjunctively with them — then scored and sorted. -/
theorem getDateBoundsConjunctive (scorer : String → SentimentScore)
    (fid : String) (now : DateTime) (st : List Review) (req : Request)
    (SD ED : DateTime)
    (hm : req.method = "GET")
    (hts : ∀ r ∈ st, parseTimestamp r.timestamp ≠ none)
    (hloc : truthy (getParam (parse_qs req.queryString) "location") = false ∨
      (getParam (parse_qs req.queryString) "location").getD "" ∈ ALLOWED_LOCATIONS)
    (hsd : truthy (getParam (parse_qs req.queryString) "start_date") = false ∨
      parseDate ((getParam (parse_qs req.queryString) "start_date").getD "") = some SD)
    (hed : truthy (getParam (parse_qs req.queryString) "end_date") = false ∨
      parseDate ((getParam (parse_qs req.queryString) "end_date").getD "") = some ED) :
    handleRequest scorer fid now st req =
      (⟨200, Body.list (pySortByCompound ((st.filter (fun r =>
          (!truthy (getParam (parse_qs req.queryString) "location") ||
            decide (r.location = (getParam (parse_qs req.queryString) "location").getD "")) &&
          (!truthy (getParam (parse_qs req.queryString) "start_date") || dtLe SD (tsOf r)) &&
          (!truthy (getParam (parse_qs req.queryString) "end_date") || dtLe (tsOf r) ED))).map
          (scoreOne scorer)))⟩, st) := by
  have hcore := getCoreAux_filters st (getParam (parse_qs req.queryString) "location")
    (getParam (parse_qs req.queryString) "start_date")
    (getParam (parse_qs req.queryString) "end_date") SD ED hts hloc hsd hed
  rw [handleRequest, if_pos hm, runGetBody, hcore]

/-- C4 witness: both bounds set to 2022-06-15 over the demo store; the
boundary review `r3` (timestamp exactly midnight of the bound) survives
both inclusive bounds. -/
theorem getDateBoundsConjunctiveWitness :
    handleRequest stubScorer "u1" demoNow demoStore
        ⟨"GET", "start_date=2022-06-15&end_date=2022-06-15", .ok 0, ""⟩ =
      (⟨200, Body.list (pySortByCompound ((demoStore.filter (fun r =>
          (!truthy (getParam (parse_qs "start_date=2022-06-15&end_date=2022-06-15") "location") ||
            decide (r.location = (getParam (parse_qs "start_date=2022-06-15&end_date=2022-06-15") "location").getD "")) &&
          (!truthy (getParam (parse_qs "start_date=2022-06-15&end_date=2022-06-15") "start_date") ||
            dtLe ⟨2022, 6, 15, 0, 0, 0⟩ (tsOf r)) &&
          (!truthy (getParam (parse_qs "start_date=2022-06-15&end_date=2022-06-15") "end_date") ||
            dtLe (tsOf r) ⟨2022, 6, 15, 0, 0, 0⟩))).map
          (scoreOne stubScorer)))⟩, demoStore) :=
  getDateBoundsConjunctive stubScorer "u1" demoNow demoStore
    ⟨"GET", "start_date=2022-06-15&end_date=2022-06-15", .ok 0, ""⟩
    ⟨2022, 6, 15, 0, 0, 0⟩ ⟨2022, 6, 15, 0, 0, 0⟩
    rfl (by decide) (by decide) (by decide) (by decide)

/-- C5 counterexample: a GET request whose `location` parameter is
present in the query string with an empty value — a value that is not a
member of the allow-list — does not fail: it is answered 200 with the
full (here empty) result set, so the claim as stated fails on the code. -/
theorem getBlankLocationIgnoredCx :
    (handleRequest stubScorer "u1" demoNow [] ⟨"GET", "location=", .ok 0, ""⟩).1 =
      ⟨200, Body.list []⟩ ∧
    "" ∉ ALLOWED_LOCATIONS ∧
    (handleRequest stubScorer "u1" demoNow [] ⟨"GET", "location=", .ok 0, ""⟩).1.status ≠ 400 := by
  decide

/-- C5 (amended): for every GET request whose `location` parameter is
present with a NON-EMPTY value that is not a member of the allow-list,
the operation fails rather than returning zero matches: status 400 with
body exactly the quoted-value `is not an allowed location.` message, and
the store is unchanged.  (An empty-valued parameter is instead treated
as absent, see the counterexample.) -/
theorem getInvalidLocation400 (scorer : String → SentimentScore)
    (fid : String) (now : DateTime) (st : List Review) (req : Request)
    (v : String)
    (hm : req.method = "GET")
    (hv : getParam (parse_qs req.queryString) "location" = some v)
    (hnv : v ∉ ALLOWED_LOCATIONS) :
    handleRequest scorer fid now st req =
      (⟨400, Body.err (invalidLocationMsg v)⟩, st) := by
  have htv : truthy (some v) = true := by
    simp [truthy, getParam_ne_blank hv]
  have hls : locationStep st (getParam (parse_qs req.queryString) "location") =
      .error (.early ⟨400, Body.err (invalidLocationMsg v)⟩) := by
    rw [hv, locationStep, htv]
    simp [hnv]
  rw [handleRequest, if_pos hm, runGetBody, getCoreAux, hls]

/-- C5 witness: the amended theorem applied to the spec's concrete
scenario `location=Nowhere, Nowhere`. -/
theorem getInvalidLocation400Witness :
    handleRequest stubScorer "u1" demoNow demoStore
        ⟨"GET", "location=Nowhere, Nowhere", .ok 0, ""⟩ =
      (⟨400, Body.err (invalidLocationMsg "Nowhere, Nowhere")⟩, demoStore) :=
  getInvalidLocation400 stubScorer "u1" demoNow demoStore
    ⟨"GET", "location=Nowhere, Nowhere", .ok 0, ""⟩ "Nowhere, Nowhere"
    rfl (by decide) (by decide)

/-- C6: for every POST request whose readable form body carries an
allowed `Location` and a (necessarily non-empty) `ReviewBody`, the
response has status 201 and contains exactly the record built from the
submitted values, the freshly generated id and the `strftime`-rendered
timestamp; the body is a plain `Review` (no sentiment field by the shape
of `Body.obj`), the timestamp matches `YYYY-MM-DD HH:MM:SS`, the record
is appended to the store, and — when the generated id is fresh — the
stored ids remain pairwise distinct. -/
theorem postSuccessCreatesReview (scorer : String → SentimentScore)
    (fid : String) (now : DateTime) (st : List Review) (req : Request)
    (n : Int) (loc rb : String)
    (hm : req.method = "POST")
    (hn : req.contentLength = .ok n)
    (hl : getParam (parse_qs (pyRead req.rawBody n)) "Location" = some loc)
    (hr : getParam (parse_qs (pyRead req.rawBody n)) "ReviewBody" = some rb)
    (hal : loc ∈ ALLOWED_LOCATIONS)
    (hnd : (st.map Review.reviewId).Nodup)
    (hfresh : ∀ r ∈ st, r.reviewId ≠ fid) :
    handleRequest scorer fid now st req =
      (⟨201, Body.obj (Review.mk fid loc rb (strftimeTs now))⟩,
        st ++ [Review.mk fid loc rb (strftimeTs now)]) ∧
    rb ≠ "" ∧
    isTsFormat (strftimeTs now) = true ∧
    ((st ++ [Review.mk fid loc rb (strftimeTs now)]).map Review.reviewId).Nodup := by
  have hng : req.method ≠ "GET" := by
    rw [hm]
    decide
  refine ⟨?_, getParam_ne_blank hr, isTsFormat_strftimeTs now, ?_⟩
  · rw [handleRequest, if_neg hng, if_pos hm, runPost_success hn hl hr hal]
  · rw [List.map_append, List.nodup_append]
    refine ⟨hnd, List.nodup_singleton _, ?_⟩
    intro a ha hb
    rcases List.mem_map.mp ha with ⟨r, hrs, rfl⟩
    have hb2 : r.reviewId = fid := by
      simpa using hb
    exact hfresh r hrs hb2

/-- C6 witness: the theorem applied to a concrete creation request with
`Location=Denver, Colorado` and `ReviewBody=Great service!`. -/
theorem postSuccessCreatesReviewWitness :
    handleRequest stubScorer "uid9" demoNow demoStore
        ⟨"POST", "", .ok 51, "Location=Denver, Colorado&ReviewBody=Great service!"⟩ =
      (⟨201, Body.obj (Review.mk "uid9" "Denver, Colorado" "Great service!" (strftimeTs demoNow))⟩,
        demoStore ++ [Review.mk "uid9" "Denver, Colorado" "Great service!" (strftimeTs demoNow)]) ∧
    "Great service!" ≠ "" ∧
    isTsFormat (strftimeTs demoNow) = true ∧
    ((demoStore ++ [Review.mk "uid9" "Denver, Colorado" "Great service!" (strftimeTs demoNow)]).map Review.reviewId).Nodup :=
  postSuccessCreatesReview stubScorer "uid9" demoNow demoStore
    ⟨"POST", "", .ok 51, "Location=Denver, Colorado&ReviewBody=Great service!"⟩
    51 "Denver, Colorado" "Great service!"
    rfl rfl rfl rfl (by decide) (by decide) (by decide)

/-- C7: for every GET request whose filtering pipeline completes with
pre-sort list `f`, the response body is the stable descending sort of
the scored list `f.map (scoreOne scorer)`, and for every compound value
`c` the sub-sequence of entries scoring exactly `c` is identical before
and after sorting — i.e. reviews with tied compound scores keep their
pre-sort relative order. -/
theorem getSortStable (scorer : String → SentimentScore)
    (reviews : List Review) (q : List (String × String))
    (f : List Review) (c : Rat)
    (h : getCoreAux reviews (getParam q "location") (getParam q "start_date")
        (getParam q "end_date") = .ok f) :
    runGetBody scorer reviews q =
      some ⟨200, Body.list (pySortByCompound (f.map (scoreOne scorer)))⟩ ∧
    (pySortByCompound (f.map (scoreOne scorer))).filter
        (fun z => decide (z.sentiment.compound = c)) =
      (f.map (scoreOne scorer)).filter
        (fun z => decide (z.sentiment.compound = c)) := by
  refine ⟨?_, pySortByCompound_filter _ c⟩
  rw [runGetBody, h]

/-- C7 witness: the theorem applied to a criterion-free query over a
store with two reviews tied at compound 1. -/
theorem getSortStableWitness :
    runGetBody tieScorer tieStore [] =
      some ⟨200, Body.list (pySortByCompound (tieStore.map (scoreOne tieScorer)))⟩ ∧
    (pySortByCompound (tieStore.map (scoreOne tieScorer))).filter
        (fun z => decide (z.sentiment.compound = 1)) =
      (tieStore.map (scoreOne tieScorer)).filter
        (fun z => decide (z.sentiment.compound = 1)) :=
  getSortStable tieScorer tieStore [] tieStore 1 rfl

/-- C8: a review created by a successful POST and immediately retrieved
by a criterion-free GET appears in the result set with identical
`ReviewId`, `Location`, `ReviewBody` and `Timestamp` (sentiment is
attached on the way out by `scoreOne`). -/
theorem postThenGetRoundTrip (scorer : String → SentimentScore)
    (fid : String) (now : DateTime) (st : List Review)
    (reqP reqG : Request) (n : Int) (loc rb : String)
    (hm : reqP.method = "POST")
    (hn : reqP.contentLength = .ok n)
    (hl : getParam (parse_qs (pyRead reqP.rawBody n)) "Location" = some loc)
    (hr : getParam (parse_qs (pyRead reqP.rawBody n)) "ReviewBody" = some rb)
    (hal : loc ∈ ALLOWED_LOCATIONS)
    (hgm : reqG.method = "GET")
    (hg1 : getParam (parse_qs reqG.queryString) "location" = none)
    (hg2 : getParam (parse_qs reqG.queryString) "start_date" = none)
    (hg3 : getParam (parse_qs reqG.queryString) "end_date" = none) :
    handleRequest scorer fid now st reqP =
      (⟨201, Body.obj (Review.mk fid loc rb (strftimeTs now))⟩,
        st ++ [Review.mk fid loc rb (strftimeTs now)]) ∧
    handleRequest scorer fid now (st ++ [Review.mk fid loc rb (strftimeTs now)]) reqG =
      (⟨200, Body.list (pySortByCompound
          ((st ++ [Review.mk fid loc rb (strftimeTs now)]).map (scoreOne scorer)))⟩,
        st ++ [Review.mk fid loc rb (strftimeTs now)]) ∧
    (⟨fid, loc, strftimeTs now, rb, scorer rb⟩ : ScoredReview) ∈
      pySortByCompound ((st ++ [Review.mk fid loc rb (strftimeTs now)]).map (scoreOne scorer)) := by
  have hng : reqP.method ≠ "GET" := by
    rw [hm]
    decide
  refine ⟨?_, ?_, ?_⟩
  · rw [handleRequest, if_neg hng, if_pos hm, runPost_success hn hl hr hal]
  · rw [handleRequest, if_pos hgm, runGetBody_no_criteria scorer _ _ hg1 hg2 hg3]
  · apply (pySortByCompound_perm _).mem_iff.mpr
    apply List.mem_map.mpr
    refine ⟨Review.mk fid loc rb (strftimeTs now), ?_, rfl⟩
    simp

/-- C8 witness: the round trip applied to the concrete creation of C6
followed by a criterion-free GET. -/
theorem postThenGetRoundTripWitness :
    handleRequest stubScorer "uid9" demoNow demoStore
        ⟨"POST", "", .ok 51, "Location=Denver, Colorado&ReviewBody=Great service!"⟩ =
      (⟨201, Body.obj (Review.mk "uid9" "Denver, Colorado" "Great service!" (strftimeTs demoNow))⟩,
        demoStore ++ [Review.mk "uid9" "Denver, Colorado" "Great service!" (strftimeTs demoNow)]) ∧
    handleRequest stubScorer "uid9" demoNow
        (demoStore ++ [Review.mk "uid9" "Denver, Colorado" "Great service!" (strftimeTs demoNow)])
        ⟨"GET", "", .ok 0, ""⟩ =
      (⟨200, Body.list (pySortByCompound
          ((demoStore ++ [Review.mk "uid9" "Denver, Colorado" "Great service!" (strftimeTs demoNow)]).map (scoreOne stubScorer)))⟩,
        demoStore ++ [Review.mk "uid9" "Denver, Colorado" "Great service!" (strftimeTs demoNow)]) ∧
    (⟨"uid9", "Denver, Colorado", strftimeTs demoNow, "Great service!",
        stubScorer "Great service!"⟩ : ScoredReview) ∈
      pySortByCompound ((demoStore ++ [Review.mk "uid9" "Denver, Colorado" "Great service!" (strftimeTs demoNow)]).map (scoreOne stubScorer)) :=
  postThenGetRoundTrip stubScorer "uid9" demoNow demoStore
    ⟨"POST", "", .ok 51, "Location=Denver, Colorado&ReviewBody=Great service!"⟩
    ⟨"GET", "", .ok 0, ""⟩ 51 "Denver, Colorado" "Great service!"
    rfl rfl rfl rfl (by decide) rfl rfl rfl rfl

/-- C9: every request answered with a 400 validation error leaves the
review store unchanged — in the GET branch the store is never mutated,
and in the POST branch every 400 (missing field, disallowed location, or
a caught exception) is produced before the `append`. -/
theorem validation400PreservesStore (scorer : String → SentimentScore)
    (fid : String) (now : DateTime) (st : List Review) (req : Request)
    (h : (handleRequest scorer fid now st req).1.status = 400) :
    (handleRequest scorer fid now st req).2 = st := by
  by_cases hg : req.method = "GET"
  · rw [handleRequest, if_pos hg]
    rcases hr : runGetBody scorer st (parse_qs req.queryString) with _ | resp
    · rfl
    · rfl
  · by_cases hp : req.method = "POST"
    · rw [handleRequest, if_neg hg, if_pos hp] at h ⊢
      rcases hr : runPost st fid now req.contentLength req.rawBody with msg | x
      · rfl
      · rcases x with ⟨resp, st2⟩
        rw [hr] at h
        dsimp only at h ⊢
        rcases runPost_ok_cases hr with ⟨_, hst⟩ | h201
        · exact hst
        · rw [h201] at h
          exact absurd h (by decide)
    · rw [handleRequest, if_neg hg, if_neg hp] at h
      exact absurd h ((by decide : (405 : Nat) ≠ 400))

/-- C9 witness: the theorem applied to a concrete POST that fails the
required-fields validation with a 400; the store is returned unchanged. -/
theorem validation400PreservesStoreWitness :
    (handleRequest stubScorer "u1" demoNow demoStore ⟨"POST", "", .ok 0, ""⟩).2 =
      demoStore :=
  validation400PreservesStore stubScorer "u1" demoNow demoStore
    ⟨"POST", "", .ok 0, ""⟩ (by decide)

/-- C10: a query parameter supplied with an empty-string value is
treated exactly as if it were absent: deleting all blank-valued pairs
from the parsed query does not change the GET outcome (so no
`InvalidLocation` or date-parse failure is ever raised for them and no
filtering happens on them), extracted parameters are never the empty
string, the concrete query string `location=&start_date=&end_date=`
behaves like the empty query — all although `""` is not a member of the
allow-list. -/
theorem blankCriteriaIgnored (scorer : String → SentimentScore)
    (reviews : List Review) (q : List (String × String)) :
    runGetBody scorer reviews (q.filter (fun p => decide (p.2 ≠ ""))) =
      runGetBody scorer reviews q ∧
    (∀ k : String, getParam q k ≠ some "") ∧
    runGetBody scorer reviews (parse_qs "location=&start_date=&end_date=") =
      runGetBody scorer reviews [] ∧
    "" ∉ ALLOWED_LOCATIONS := by
  refine ⟨?_, ?_, ?_, by decide⟩
  · rw [runGetBody, runGetBody, getParam_filter_blank, getParam_filter_blank,
      getParam_filter_blank]
  · intro k hk
    exact getParam_ne_blank hk rfl
  · have e1 : getParam (parse_qs "location=&start_date=&end_date=") "location" =
        none := by decide
    have e2 : getParam (parse_qs "location=&start_date=&end_date=") "start_date" =
        none := by decide
    have e3 : getParam (parse_qs "location=&start_date=&end_date=") "end_date" =
        none := by decide
    rw [runGetBody, runGetBody, e1, e2, e3]
    rfl
